import Mathlib

/-!
Verification of the charging-session simulation core of m18gui.py
(`M18GUI`): profile catalog resolution, the simulated-baud → keepalive
interval map, the raw↔amps field synchronisation, the session
supervisor's start/stop, and the background simulation worker with its
save / override / restore of the device's `CUTOFF_CURRENT` and
`MAX_CURRENT` fields.

Modelling conventions:
* Python integers are `Int` (they only ever hold small values here);
  parsed text fields are `Option Int` / `Option ℚ`, where `none` stands
  for a parse failure (`int(...)` / `float(...)` raising `ValueError`).
* The device handle's two fields are `Option Int`: `none` is the
  absent-attribute case, where `getattr(m, "...", None)` yields `None`.
* Seconds are `ℚ` (the durations and intervals involved — 1.0, 0.75,
  0.5, 0.25, user durations — are exact in binary floating point, so
  the comparisons performed by the code are exact).
* The amps display `f"{raw/1000.0:.2f}"` rounds `raw/1000` to the
  nearest hundredth of an ampere.  For `raw % 10 ≠ 5` this rounding is
  unambiguous (the binary floating-point error of `raw/1000.0`, below
  `2^-40` here, cannot cross a hundredth midpoint that is at least
  `1/1000` away); when `raw % 10 = 5` the exact value sits on a
  midpoint and the direction taken depends on the binary representation
  of `raw/1000.0`, so the embedding carries an explicit tie-direction
  parameter and every theorem below holds for both directions.
-/

namespace M18Gui

/-- The fixed preset profiles of `M18GUI.__init__` (`self.sim_profiles`):
`(raw cutoff, raw max current)` per name; any other selection (the GUI
offers "Custom") is not in the table. -/
def sim_profiles : String → Option (Int × Int)
  | "Gentle" => some (150, 2500)
  | "Normal" => some (300, 6000)
  | "Aggressive" => some (450, 9000)
  | _ => none

/-- The message of the `ValueError` raised by `get_profile_currents` for
invalid custom values. -/
def invalid_custom_msg : String :=
  "Invalid custom cutoff or max current values.\nPlease enter positive integers less than 20000."

/-- `M18GUI.get_profile_currents`: return `(cutoff_raw, max_raw)` for the
selected profile.  A name in `sim_profiles` yields its fixed pair; any
other selection is treated as the custom profile, whose raw fields are
parsed (`none` = `int()` raised) and validated: `cutoff_raw ≥ 0`,
`max_raw > 0`, both `≤ 20000`. -/
def get_profile_currents (profile : String)
    (cutoffField maxField : Option Int) : Except String (Int × Int) :=
  match sim_profiles profile with
  | some p => .ok p
  | none =>
    match cutoffField, maxField with
    | some cutoff_raw, some max_raw =>
      if cutoff_raw < 0 ∨ max_raw ≤ 0 then .error invalid_custom_msg
      else if cutoff_raw > 20000 ∨ max_raw > 20000 then .error invalid_custom_msg
      else .ok (cutoff_raw, max_raw)
    | _, _ => .error invalid_custom_msg

/-- The `interval_map` lookup of `start_simulation`:
`interval_map.get(sim_baud_str, 0.5)`, mapping the simulated-baud token
to the keepalive interval in seconds. -/
def interval_for (s : String) : ℚ :=
  if s = "1200" then 1
  else if s = "2400" then 3/4
  else if s = "4800" then 1/2
  else if s = "9600" then 1/4
  else 1/2

/-- The amps value displayed for a nonnegative raw value, in centi-amps:
`f"{raw/1000.0:.2f}"` rounds `raw/1000` to the nearest hundredth, i.e.
`raw/10` to the nearest integer number of centi-amps.  `tieUp` fixes the
direction taken when `raw % 10 = 5` (exact midpoint; see the header). -/
def rawToCenti (tieUp : Bool) (r : ℕ) : ℕ :=
  if r % 10 = 5 then (if tieUp then r / 10 + 1 else r / 10)
  else (r + 5) / 10

/-- Reading back a 2-decimal amps display of `c` centi-amps:
`int(round(amps * 1000.0))` with `amps = c/100` yields exactly `10 * c`
(the floating-point value of `c/100 * 1000.0` is within `2^-30` of the
integer `10 * c`, so `round` returns it exactly). -/
def ampsCentiToRaw (c : ℕ) : ℕ := 10 * c

/-- The round trip of §8: write `r` into the raw field, let
`on_custom_raw_focus_out` fill the amps field, then let
`on_custom_amps_focus_out` recompute the raw field from it. -/
def raw_to_amps_to_raw (tieUp : Bool) (r : ℕ) : ℕ :=
  ampsCentiToRaw (rawToCenti tieUp r)

/-- Two-decimal centi-amps rendered as the string the handler writes
into the amps field (`f"{amps:.2f}"` for `amps = c/100`). -/
def formatCenti (c : ℕ) : String :=
  toString (c / 100) ++ "." ++
    (if c % 100 < 10 then "0" ++ toString (c % 100) else toString (c % 100))

/-- `M18GUI.on_custom_raw_focus_out`: when the raw entries lose focus,
refresh the amps entries.  Each row independently parses its raw field
(`none` = `int()` raised `ValueError`), rejects negatives, and on
success writes the 2-decimal amps display; on failure the row's amps
field is left as it was, and nothing is raised (the handler catches
`ValueError`; the embedding is a total function).  When
`_sync_in_progress` is set, the whole handler returns immediately. -/
def on_custom_raw_focus_out (tieUp : Bool) (syncInProgress : Bool)
    (cutoffRaw maxRaw : Option Int) (cutoffAmpsField maxAmpsField : String) :
    String × String :=
  if syncInProgress then (cutoffAmpsField, maxAmpsField)
  else
    let cutoffAmpsField :=
      match cutoffRaw with
      | some raw =>
        if raw < 0 then cutoffAmpsField else formatCenti (rawToCenti tieUp raw.toNat)
      | none => cutoffAmpsField
    let maxAmpsField :=
      match maxRaw with
      | some raw =>
        if raw < 0 then maxAmpsField else formatCenti (rawToCenti tieUp raw.toNat)
      | none => maxAmpsField
    (cutoffAmpsField, maxAmpsField)

/-- `M18GUI.on_custom_amps_focus_out`: when the amps entries lose
focus, refresh the raw entries.  Each row independently parses its amps
field as a float (`none` = `float()` raised), rejects negatives, and on
success writes `str(int(round(amps * 1000.0)))`; on failure the row's
raw field is left as it was.  (`round` is modelled by Mathlib's `round`
on `ℚ`; the two can differ only when `amps * 1000.0` is an exact
half-integer, which no 2-decimal amps display produces.) -/
def on_custom_amps_focus_out (syncInProgress : Bool)
    (cutoffAmps maxAmps : Option ℚ) (cutoffRawField maxRawField : String) :
    String × String :=
  if syncInProgress then (cutoffRawField, maxRawField)
  else
    let cutoffRawField :=
      match cutoffAmps with
      | some amps =>
        if amps < 0 then cutoffRawField else toString (round (amps * 1000))
      | none => cutoffRawField
    let maxRawField :=
      match maxAmps with
      | some amps =>
        if amps < 0 then maxRawField else toString (round (amps * 1000))
      | none => maxRawField
    (cutoffRawField, maxRawField)

/-- The device handle's two charger fields, as the worker sees them:
`none` is the absent-attribute case (`getattr(m, "CUTOFF_CURRENT",
None)` / `getattr(m, "MAX_CURRENT", None)` returning `None`). -/
structure Device where
  cutoff : Option Int
  maxCur : Option Int
  deriving DecidableEq, Repr

/-- The observable events the worker logs, in order: the "Sending reset
and initial configure..." announcement, the reported stage failures,
one tick log per successful keepalive, and the final "Simulation
finished ... Parameters restored" notice. -/
inductive SimEvent where
  | negotiating
  | resetFailed
  | negotiationFailed
  | tick (i : ℕ)
  | keepaliveFailed
  | finished
  deriving DecidableEq, Repr

/-- Oracle for the worker's interactions with the outside world: the
outcome of `m.reset()`, of the `configure/get_snapchat/keepalive`
negotiation block, the value of `sim_stop_event.is_set()` sampled at
the top of loop iteration `i`, the elapsed time `time.time() -
begin_time` read at iteration `i`, and the outcome of the iteration's
`m.keepalive()`. -/
structure SimEnv where
  resetOk : Bool
  negotiationOk : Bool
  stopAt : ℕ → Bool
  elapsedAt : ℕ → ℚ
  keepaliveOk : ℕ → Bool

/-- The main simulation loop of `_simulation_worker`: at each iteration
check the stop flag, then the elapsed-time bound, then sleep `interval`
and send one keepalive — the flag is consulted exactly once per
iteration, before the (non-preemptible) sleep, never mid-sleep.
Returns (number of ticks, events, completed); `fuel` bounds the
iterations modelled, and `completed = false` marks a run the oracle
never let terminate (the Python loop would still be running, and
finalization would not yet have happened). -/
def simLoop (env : SimEnv) (duration : ℚ) : ℕ → ℕ → ℕ × List SimEvent × Bool
  | 0, _ => (0, [], false)
  | fuel + 1, i =>
    if env.stopAt i then (0, [], true)
    else if duration ≤ env.elapsedAt i then (0, [], true)
    else if env.keepaliveOk i then
      let r := simLoop env duration fuel (i + 1)
      (r.1 + 1, SimEvent.tick i :: r.2.1, r.2.2)
    else (0, [SimEvent.keepaliveFailed], true)

/-- The `finally` block's restoration: `if old_cutoff is not None:
m.CUTOFF_CURRENT = old_cutoff`, and likewise for `MAX_CURRENT` — a
`None` (absent) saved value is skipped, any other is written back. -/
def restoreFields (old_cutoff old_max : Option Int) (dev : Device) : Device :=
  { cutoff := match old_cutoff with | some v => some v | none => dev.cutoff,
    maxCur := match old_max with | some v => some v | none => dev.maxCur }

/-- The outcome of one `_simulation_worker` run: the device handle's
fields on exit (`none` when the worker bailed out before touching the
device), the logged events, the tick count, and whether the run
reached the end of its control flow within the modelled fuel. -/
structure WorkerResult where
  device : Option Device
  events : List SimEvent
  ticks : ℕ
  completed : Bool
  deriving DecidableEq, Repr

/-- `M18GUI._simulation_worker`, run against the oracle `env`.  If the
handle is gone (`m is None`) it reports and returns before touching
anything.  Otherwise it saves the two fields, installs the profile
values, runs reset / negotiation / the keepalive loop inside a `try`
whose every exit path — natural completion, `return` on reset or
negotiation failure, loop break on stop, elapsed `duration`, or
keepalive failure — falls through to the `finally`: best-effort
`m.idle()` (errors swallowed, no field effect), conditional restoration
of the saved fields, and the finished notice.  Exceptions of every
stage are caught inside the worker thread, so nothing propagates to
the caller of `start_simulation` (which returned at spawn time); the
embedding is accordingly a total function. -/
def simulation_worker (env : SimEnv) (fuel : ℕ) (m : Option Device)
    (cutoff_raw max_raw : Int) (duration : ℚ) : WorkerResult :=
  match m with
  | none => { device := none, events := [], ticks := 0, completed := true }
  | some dev0 =>
    let old_cutoff := dev0.cutoff
    let old_max := dev0.maxCur
    let dev : Device := { cutoff := some cutoff_raw, maxCur := some max_raw }
    let body : List SimEvent × ℕ × Bool :=
      if env.resetOk = false then ([SimEvent.negotiating, SimEvent.resetFailed], 0, true)
      else if env.negotiationOk = false then
        ([SimEvent.negotiating, SimEvent.negotiationFailed], 0, true)
      else
        let r := simLoop env duration fuel 0
        (SimEvent.negotiating :: r.2.1, r.1, r.2.2)
    { device := some (restoreFields old_cutoff old_max dev),
      events := body.1 ++ [SimEvent.finished],
      ticks := body.2.1,
      completed := body.2.2 }

/-- The outcome `start_simulation` reports synchronously: one of the
rejection dialogs, or a started session with its resolved parameters. -/
inductive StartResult where
  | notConnected
  | alreadyRunning
  | invalidDuration
  | profileError (msg : String)
  | started (cutoff_raw max_raw : Int) (interval : ℚ)
  deriving DecidableEq, Repr

/-- The supervisor-side state living on the `M18GUI` object:
whether `self.m18_obj` is bound, whether `self.sim_thread` is alive,
and `self.sim_stop_event` (`none` = no event object yet, `some b` = an
event whose flag is `b`). -/
structure SupState where
  connected : Bool
  threadAlive : Bool
  stopEvent : Option Bool
  deriving DecidableEq, Repr

/-- `M18GUI.start_simulation`, with the text fields already parsed
(`durationField : Option ℚ`, `none` = `float()` raised).  In source
order: require a connection; reject while `sim_thread` is alive;
validate the duration (`> 0`); look up the keepalive interval; resolve
the profile; then install a fresh unset stop event and spawn the
worker thread.  Every rejection leaves the state untouched. -/
def start_simulation (s : SupState) (durationField : Option ℚ) (baud : String)
    (profile : String) (cutoffField maxField : Option Int) :
    SupState × StartResult :=
  if s.connected = false then (s, .notConnected)
  else if s.threadAlive then (s, .alreadyRunning)
  else
    match durationField with
    | none => (s, .invalidDuration)
    | some duration =>
      if duration ≤ 0 then (s, .invalidDuration)
      else
        let keepalive_interval := interval_for baud
        match get_profile_currents profile cutoffField maxField with
        | .error _ => (s, .profileError invalid_custom_msg)
        | .ok (cutoff, max_current) =>
          ({ s with threadAlive := true, stopEvent := some false },
            .started cutoff max_current keepalive_interval)

/-- `M18GUI.stop_simulation`: `if self.sim_stop_event is not None:
self.sim_stop_event.set()` — set the cooperative flag when an event
object exists, otherwise do nothing. -/
def stop_simulation (s : SupState) : SupState :=
  match s.stopEvent with
  | none => s
  | some _ => { s with stopEvent := some true }

end M18Gui

namespace M18Gui

/-- C5: Profile resolution is deterministic and validating: "Normal"
resolves to `(300, 6000)` whatever the custom fields hold; "Custom" with
`cutoff_raw = 500`, `max_raw = 7000` resolves to `(500, 7000)`; and for
custom integer fields resolution fails (with the `InvalidProfile`
message) exactly when `cutoff_raw < 0`, `max_raw ≤ 0`, or either value
exceeds 20000.  `get_profile_currents` is a pure function of the
selection and the two fields, so resolution never mutates catalog
state and repeated calls agree. -/
theorem C5_profile_resolution :
    (∀ cf mf : Option Int, get_profile_currents "Normal" cf mf = .ok (300, 6000)) ∧
    get_profile_currents "Custom" (some 500) (some 7000) = .ok (500, 7000) ∧
    (∀ c m : Int,
      get_profile_currents "Custom" (some c) (some m) = .error invalid_custom_msg ↔
        (c < 0 ∨ m ≤ 0 ∨ 20000 < c ∨ 20000 < m)) := by
  refine ⟨fun cf mf => rfl, rfl, fun c m => ?_⟩
  show (if c < 0 ∨ m ≤ 0 then (.error invalid_custom_msg : Except String (Int × Int))
      else if c > 20000 ∨ m > 20000 then .error invalid_custom_msg
      else .ok (c, m)) = .error invalid_custom_msg ↔ _
  split_ifs with h1 h2
  · simp only [true_iff]
    omega
  · simp only [true_iff]
    omega
  · simp only [reduceCtorEq, false_iff]
    omega

/-- Witness for C5: the hypothesis-bearing parts applied at concrete
inputs: "Normal" with arbitrary concrete fields, and the failure
characterisation at `cutoff_raw = 500`, `max_raw = 0`. -/
theorem C5_profile_resolution_witness :
    get_profile_currents "Normal" (some 1) none = .ok (300, 6000) ∧
    get_profile_currents "Custom" (some 500) (some 0) = .error invalid_custom_msg := by
  refine ⟨C5_profile_resolution.1 (some 1) none, ?_⟩
  exact (C5_profile_resolution.2.2 500 0).mpr (Or.inr (Or.inl (by norm_num)))

/-- C7: the baud-token → keepalive-interval mapping is a pure total
function (`interval_for` is a Lean function, hence total and without a
failure case): "1200" ↦ 1.0, "2400" ↦ 0.75, "4800" ↦ 0.5,
"9600" ↦ 0.25, and every other token ↦ the default 0.5. -/
theorem C7_interval_for_total :
    interval_for "1200" = 1 ∧ interval_for "2400" = 3/4 ∧
    interval_for "4800" = 1/2 ∧ interval_for "9600" = 1/4 ∧
    ∀ s : String, s ≠ "1200" → s ≠ "2400" → s ≠ "4800" → s ≠ "9600" →
      interval_for s = 1/2 := by
  refine ⟨rfl, rfl, rfl, rfl, fun s h1 h2 h3 h4 => ?_⟩
  unfold interval_for
  rw [if_neg h1, if_neg h2, if_neg h3, if_neg h4]

/-- Witness for C7: the default branch at the concrete unrecognized
token "115200". -/
theorem C7_interval_for_witness : interval_for "115200" = 1/2 :=
  C7_interval_for_total.2.2.2.2 "115200" (by decide) (by decide) (by decide) (by decide)

/-- Counterexample to C2 as stated: the raw value 1234 does not survive
the raw → amps → raw round trip.  `on_custom_raw_focus_out` displays
`f"{1234/1000.0:.2f}" = "1.23"` (no rounding tie: both tie directions
agree), and `on_custom_amps_focus_out` then computes
`int(round(1.23 * 1000.0)) = 1230 ≠ 1234`. -/
theorem C2_roundtrip_counterexample :
    raw_to_amps_to_raw false 1234 = 1230 ∧ raw_to_amps_to_raw true 1234 = 1230 ∧
    (1230 : ℕ) ≠ 1234 := by
  decide

/-- C2 amended: since the amps field carries only two decimals (a
granularity of 10 raw units), the round trip reproduces `r` exactly iff
`r` is a multiple of 10 — for every tie direction of the display
rounding. -/
theorem C2_roundtrip_iff (tieUp : Bool) (r : ℕ) (h : r ≤ 20000) :
    raw_to_amps_to_raw tieUp r = r ↔ 10 ∣ r := by
  unfold raw_to_amps_to_raw rawToCenti ampsCentiToRaw
  split_ifs <;> omega

/-- Witness for C2's amended theorem: the round trip at the in-range
multiple of 10, `r = 19990`, is exact. -/
theorem C2_roundtrip_iff_witness : raw_to_amps_to_raw true 19990 = 19990 :=
  (C2_roundtrip_iff true 19990 (by norm_num)).mpr ⟨1999, rfl⟩

/-- An oracle whose stop flag is already set at the first loop
iteration (a cancellation observed immediately): reset and negotiation
succeed, no keepalive is ever sent. -/
def stoppedEnv : SimEnv :=
  { resetOk := true, negotiationOk := true, stopAt := fun _ => true,
    elapsedAt := fun _ => 0, keepaliveOk := fun _ => true }

/-- An oracle on which `m.reset()` fails. -/
def resetFailEnv : SimEnv :=
  { resetOk := false, negotiationOk := true, stopAt := fun _ => false,
    elapsedAt := fun _ => 0, keepaliveOk := fun _ => true }

/-- An oracle for the mid-run cancellation scenario: everything
succeeds, time advances half a second per iteration, and the stop flag
is observed set from the third iteration boundary on (i.e. right after
the second keepalive tick). -/
def stopAfterTwoEnv : SimEnv :=
  { resetOk := true, negotiationOk := true,
    stopAt := fun i => decide (2 ≤ i),
    elapsedAt := fun i => i / 2,
    keepaliveOk := fun _ => true }

/-- C1: for every run of `_simulation_worker` — whatever the oracle
makes of reset, negotiation, stop flag, elapsed time and keepalives,
hence on natural completion, cancellation, negotiation failure and
keepalive failure alike — once finalization completes, the device
handle's `CUTOFF_CURRENT` and `MAX_CURRENT` equal the values they held
immediately before the worker overwrote them with the profile values
(here `some a` / `some b`: the fields were present pre-session, as
§6's device contract provides; C10 covers the absent-field sentinel). -/
theorem C1_restoration_invariant (env : SimEnv) (fuel : ℕ) (dev : Device)
    (a b cutoff_raw max_raw : Int) (duration : ℚ)
    (hc : dev.cutoff = some a) (hm : dev.maxCur = some b)
    (hdone : (simulation_worker env fuel (some dev) cutoff_raw max_raw duration).completed
      = true) :
    (simulation_worker env fuel (some dev) cutoff_raw max_raw duration).device =
      some { cutoff := some a, maxCur := some b } := by
  simp [simulation_worker, restoreFields, hc, hm]

/-- Witness for C1: a concrete completed run (cancellation observed at
the first boundary) against a device holding `(5, 7)`, with profile
values `(300, 6000)` installed during the run: the fields come back as
`(5, 7)`. -/
theorem C1_restoration_invariant_witness :
    (simulation_worker stoppedEnv 1 (some ⟨some 5, some 7⟩) 300 6000 60).device =
      some ⟨some 5, some 7⟩ :=
  C1_restoration_invariant stoppedEnv 1 ⟨some 5, some 7⟩ 5 7 300 6000 60 rfl rfl rfl

/-- C3: at most one simulation session at a time.  Whenever
`sim_thread` is alive, `start_simulation` leaves the supervisor state
(thread, stop event, connection) exactly as it was — no second worker
is spawned and the running session's state is untouched — and never
reports a started session; when a connection is bound (as it is for
any normally running session) the rejection reported is precisely the
"already in progress" dialog. -/
theorem C3_single_active_session (s : SupState) (durationField : Option ℚ)
    (baud profile : String) (cutoffField maxField : Option Int)
    (halive : s.threadAlive = true) :
    (start_simulation s durationField baud profile cutoffField maxField).1 = s ∧
    (∀ c mx iv, (start_simulation s durationField baud profile cutoffField maxField).2 ≠
      .started c mx iv) ∧
    (s.connected = true →
      (start_simulation s durationField baud profile cutoffField maxField).2 =
        .alreadyRunning) := by
  rcases hcon : s.connected with _ | _
  · simp [start_simulation, hcon]
  · simp [start_simulation, hcon, halive]

/-- Witness for C3: a connected supervisor with a live worker rejects a
concrete start request as already running and keeps its state. -/
theorem C3_single_active_session_witness :
    (start_simulation ⟨true, true, some false⟩ (some 60) "4800" "Normal" none none).1 =
      ⟨true, true, some false⟩ ∧
    (start_simulation ⟨true, true, some false⟩ (some 60) "4800" "Normal" none none).2 =
      .alreadyRunning :=
  ⟨(C3_single_active_session ⟨true, true, some false⟩ (some 60) "4800" "Normal"
      none none rfl).1,
    (C3_single_active_session ⟨true, true, some false⟩ (some 60) "4800" "Normal"
      none none rfl).2.2 rfl⟩

/-- C4: when `m.reset()` fails during negotiation the worker goes
straight to finalization: it logs exactly the announcement, the
reported reset failure and the finished notice, issues zero keepalive
ticks, completes, and still restores the device's saved cutoff/max
values; the exception is caught inside the worker (the embedding is a
total function and `start_simulation` returned at spawn time), so
nothing propagates to the caller of start. -/
theorem C4_negotiation_failure (env : SimEnv) (fuel : ℕ) (dev : Device)
    (a b cutoff_raw max_raw : Int) (duration : ℚ)
    (hreset : env.resetOk = false)
    (hc : dev.cutoff = some a) (hm : dev.maxCur = some b) :
    (simulation_worker env fuel (some dev) cutoff_raw max_raw duration).events =
      [SimEvent.negotiating, SimEvent.resetFailed, SimEvent.finished] ∧
    (simulation_worker env fuel (some dev) cutoff_raw max_raw duration).ticks = 0 ∧
    (simulation_worker env fuel (some dev) cutoff_raw max_raw duration).completed = true ∧
    (simulation_worker env fuel (some dev) cutoff_raw max_raw duration).device =
      some { cutoff := some a, maxCur := some b } := by
  simp [simulation_worker, restoreFields, hreset, hc, hm]

/-- Witness for C4: a concrete run whose reset fails: the three events
in order, zero ticks, completion, fields `(1, 2)` restored. -/
theorem C4_negotiation_failure_witness :
    (simulation_worker resetFailEnv 5 (some ⟨some 1, some 2⟩) 300 6000 60).events =
      [SimEvent.negotiating, SimEvent.resetFailed, SimEvent.finished] ∧
    (simulation_worker resetFailEnv 5 (some ⟨some 1, some 2⟩) 300 6000 60).ticks = 0 ∧
    (simulation_worker resetFailEnv 5 (some ⟨some 1, some 2⟩) 300 6000 60).completed = true ∧
    (simulation_worker resetFailEnv 5 (some ⟨some 1, some 2⟩) 300 6000 60).device =
      some ⟨some 1, some 2⟩ :=
  C4_negotiation_failure resetFailEnv 5 ⟨some 1, some 2⟩ 1 2 300 6000 60 rfl rfl rfl

/-- C9: `stop_simulation` is idempotent — a second (or any further)
call leaves the state exactly where the first call put it; with no
stop-event object (no session ever prepared) it is a no-op; with an
event object present it sets the flag; and it never produces an unset
flag, so the flag is monotonic false → true and is never reset (a
fresh unset event is only ever installed by a successful start). -/
theorem C9_stop_idempotent :
    (∀ s, stop_simulation (stop_simulation s) = stop_simulation s) ∧
    (∀ s, s.stopEvent = none → stop_simulation s = s) ∧
    (∀ s b, s.stopEvent = some b → (stop_simulation s).stopEvent = some true) ∧
    (∀ s, (stop_simulation s).stopEvent ≠ some false) := by
  refine ⟨fun s => ?_, fun s h => ?_, fun s b h => ?_, fun s => ?_⟩ <;>
    rcases h' : s.stopEvent with _ | b' <;>
      simp_all [stop_simulation]

/-- Witness for C9: on a concrete supervisor state with a live session
and unset flag, a repeated stop equals a single stop, and on a state
with no event object stop is the identity. -/
theorem C9_stop_idempotent_witness :
    stop_simulation (stop_simulation ⟨true, true, some false⟩) =
      stop_simulation ⟨true, true, some false⟩ ∧
    stop_simulation ⟨true, false, none⟩ = ⟨true, false, none⟩ ∧
    (stop_simulation ⟨true, true, some false⟩).stopEvent = some true :=
  ⟨C9_stop_idempotent.1 ⟨true, true, some false⟩,
    C9_stop_idempotent.2.1 ⟨true, false, none⟩ rfl,
    C9_stop_idempotent.2.2.1 ⟨true, true, some false⟩ false rfl⟩

/-- C10: when a saved pre-session value is the absent-attribute
sentinel `None`, finalization skips restoring that field, so the
profile value installed at session start is still on the device handle
after the run finishes (each field independently). -/
theorem C10_none_sentinel_skips_restore (env : SimEnv) (fuel : ℕ) (dev : Device)
    (cutoff_raw max_raw : Int) (duration : ℚ)
    (hdone : (simulation_worker env fuel (some dev) cutoff_raw max_raw duration).completed
      = true) :
    ∀ fin : Device,
      (simulation_worker env fuel (some dev) cutoff_raw max_raw duration).device = some fin →
        (dev.cutoff = none → fin.cutoff = some cutoff_raw) ∧
        (dev.maxCur = none → fin.maxCur = some max_raw) := by
  intro fin hfin
  simp only [simulation_worker, Option.some.injEq] at hfin
  constructor
  · intro hc
    rw [← hfin]
    simp [restoreFields, hc]
  · intro hm
    rw [← hfin]
    simp [restoreFields, hm]

/-- Witness for C10: a completed run against a handle with both
attributes absent leaves the profile values `(300, 6000)` installed. -/
theorem C10_none_sentinel_skips_restore_witness :
    (simulation_worker stoppedEnv 1 (some ⟨none, none⟩) 300 6000 60).device =
      some ⟨some 300, some 6000⟩ ∧
    (⟨some 300, some 6000⟩ : Device).cutoff = some 300 ∧
    (⟨some 300, some 6000⟩ : Device).maxCur = some 6000 :=
  ⟨rfl,
    (C10_none_sentinel_skips_restore stoppedEnv 1 ⟨none, none⟩ 300 6000 60 rfl
      ⟨some 300, some 6000⟩ rfl).1 rfl,
    (C10_none_sentinel_skips_restore stoppedEnv 1 ⟨none, none⟩ 300 6000 60 rfl
      ⟨some 300, some 6000⟩ rfl).2 rfl⟩

/-- Helper: if the oracle lets the first `k` iterations run (stop flag
unset, elapsed below `duration`, keepalive succeeding) and the stop
flag is observed set at boundary `k`, the loop performs exactly `k`
ticks and terminates there. -/
theorem simLoop_count_of_stop (env : SimEnv) (duration : ℚ) :
    ∀ (k i fuel : ℕ),
      (∀ j, j < k → env.stopAt (i + j) = false ∧ env.elapsedAt (i + j) < duration ∧
        env.keepaliveOk (i + j) = true) →
      env.stopAt (i + k) = true → k < fuel →
      (simLoop env duration fuel i).1 = k ∧ (simLoop env duration fuel i).2.2 = true := by
  intro k
  induction k with
  | zero =>
    intro i fuel hrun hstop hfuel
    obtain ⟨fuel, rfl⟩ : ∃ f, fuel = f + 1 := ⟨fuel - 1, by omega⟩
    have h0 : env.stopAt i = true := by simpa using hstop
    simp [simLoop, h0]
  | succ k ih =>
    intro i fuel hrun hstop hfuel
    obtain ⟨fuel, rfl⟩ : ∃ f, fuel = f + 1 := ⟨fuel - 1, by omega⟩
    obtain ⟨h0, h1, h2⟩ := by simpa using hrun 0 (by omega)
    have hrec := ih (i + 1) fuel
      (fun j hj => by
        have h := hrun (j + 1) (by omega)
        rwa [show i + (j + 1) = i + 1 + j by omega] at h)
      (by rwa [show i + 1 + k = i + (k + 1) by omega]) (by omega)
    simp [simLoop, h0, not_le.mpr h1, h2, hrec.1, hrec.2]

/-- C6: cancellation is cooperative and bounded.  The loop consults the
stop flag exactly once per iteration, at the iteration boundary before
the (non-preemptible) sleep — so a `stop_simulation` whose flag is
first observed at boundary `k` yields exactly `k` keepalive ticks, and
the loop exits at that very boundary with no further sleep or tick:
finalization (with the device fields restored) follows the first
boundary after the stop call, i.e. within one keepalive interval of
it.  Instantiated below at the spec's scenario: a 60-second session
stopped right after the second tick performs exactly 2 ticks. -/
theorem C6_cooperative_cancellation (env : SimEnv) (k fuel : ℕ) (dev : Device)
    (a b cutoff_raw max_raw : Int) (duration : ℚ)
    (hreset : env.resetOk = true) (hneg : env.negotiationOk = true)
    (hrun : ∀ j, j < k → env.stopAt j = false ∧ env.elapsedAt j < duration ∧
      env.keepaliveOk j = true)
    (hstop : env.stopAt k = true) (hfuel : k < fuel)
    (hc : dev.cutoff = some a) (hm : dev.maxCur = some b) :
    (simulation_worker env fuel (some dev) cutoff_raw max_raw duration).ticks = k ∧
    (simulation_worker env fuel (some dev) cutoff_raw max_raw duration).completed = true ∧
    (simulation_worker env fuel (some dev) cutoff_raw max_raw duration).device =
      some { cutoff := some a, maxCur := some b } := by
  have hl := simLoop_count_of_stop env duration k 0 fuel (by simpa using hrun)
    (by simpa using hstop) hfuel
  simp [simulation_worker, restoreFields, hreset, hneg, hc, hm, hl.1, hl.2]

/-- Witness for C6 — the spec's mid-run cancellation scenario: a
60-second session whose stop flag is observed from the third boundary
on performs exactly 2 ticks, reaches finalization, and restores the
fields `(11, 22)`. -/
theorem C6_cooperative_cancellation_witness :
    (simulation_worker stopAfterTwoEnv 10 (some ⟨some 11, some 22⟩) 300 6000 60).ticks = 2 ∧
    (simulation_worker stopAfterTwoEnv 10 (some ⟨some 11, some 22⟩) 300 6000 60).completed
      = true ∧
    (simulation_worker stopAfterTwoEnv 10 (some ⟨some 11, some 22⟩) 300 6000 60).device =
      some ⟨some 11, some 22⟩ :=
  C6_cooperative_cancellation stopAfterTwoEnv 2 10 ⟨some 11, some 22⟩ 11 22 300 6000 60
    rfl rfl
    (by
      intro j hj
      interval_cases j <;> exact ⟨rfl, by norm_num [stopAfterTwoEnv], rfl⟩)
    rfl (by norm_num) rfl rfl

/-- C8: malformed input to either sync handler is a per-row no-op.  If
a row's source field fails to parse (`none`: `int()` / `float()`
raised `ValueError`) or parses to a negative value, that row's target
field keeps its prior value unchanged — here for all four rows (raw
handler cutoff and max, amps handler cutoff and max), entered normally
(`_sync_in_progress` unset).  The handlers are total functions: the
`ValueError` is caught and nothing is raised. -/
theorem C8_malformed_input_noop (tieUp : Bool) (cutoffRaw maxRaw : Option Int)
    (cutoffAmps maxAmps : Option ℚ) (fA fB fC fD : String) :
    ((cutoffRaw = none ∨ ∃ v, cutoffRaw = some v ∧ v < 0) →
      (on_custom_raw_focus_out tieUp false cutoffRaw maxRaw fA fB).1 = fA) ∧
    ((maxRaw = none ∨ ∃ v, maxRaw = some v ∧ v < 0) →
      (on_custom_raw_focus_out tieUp false cutoffRaw maxRaw fA fB).2 = fB) ∧
    ((cutoffAmps = none ∨ ∃ q, cutoffAmps = some q ∧ q < 0) →
      (on_custom_amps_focus_out false cutoffAmps maxAmps fC fD).1 = fC) ∧
    ((maxAmps = none ∨ ∃ q, maxAmps = some q ∧ q < 0) →
      (on_custom_amps_focus_out false cutoffAmps maxAmps fC fD).2 = fD) := by
  refine ⟨fun h => ?_, fun h => ?_, fun h => ?_, fun h => ?_⟩ <;>
    rcases h with h | ⟨v, hv, hneg⟩ <;>
    simp_all [on_custom_raw_focus_out, on_custom_amps_focus_out]

/-- Witness for C8: a non-numeric cutoff raw field (parse failure) and
a negative max raw value leave the amps fields `"0.30"` / `"6.00"`
untouched, and likewise for the amps-side handler. -/
theorem C8_malformed_input_noop_witness :
    (on_custom_raw_focus_out false false none (some (-3)) "0.30" "6.00").1 = "0.30" ∧
    (on_custom_raw_focus_out false false none (some (-3)) "0.30" "6.00").2 = "6.00" ∧
    (on_custom_amps_focus_out false none (some (-1/2)) "300" "6000").1 = "300" ∧
    (on_custom_amps_focus_out false none (some (-1/2)) "300" "6000").2 = "6000" :=
  ⟨(C8_malformed_input_noop false none (some (-3)) none (some (-1/2)) "0.30" "6.00"
      "300" "6000").1 (Or.inl rfl),
    (C8_malformed_input_noop false none (some (-3)) none (some (-1/2)) "0.30" "6.00"
      "300" "6000").2.1 (Or.inr ⟨-3, rfl, by norm_num⟩),
    (C8_malformed_input_noop false none (some (-3)) none (some (-1/2)) "0.30" "6.00"
      "300" "6000").2.2.1 (Or.inl rfl),
    (C8_malformed_input_noop false none (some (-3)) none (some (-1/2)) "0.30" "6.00"
      "300" "6000").2.2.2 (Or.inr ⟨-1/2, rfl, by norm_num⟩)⟩

end M18Gui
